import Mathlib

/-!
Shallow embedding of the whisper transcription service and its desktop client
(`whisper_api_server.py`, `whisper_api_client.py`).

The transcription backend (`whisper.load_model` / `model.transcribe`) is opaque
in the source; it is modelled as an oracle record `Backend H` where `H` is the
type of loaded model handles.  Python exceptions are modelled explicitly:
`fastapi.HTTPException` subclasses `Exception`, so the blanket
`except Exception` at the end of `transcribe_audio` catches the endpoint's own
`HTTPException`s and re-wraps them into a fresh 500.  File-system effects are
tracked by ghost fields (`tempCreated`, `tempExists`); the options dictionary
passed to the backend is recorded in `backendOptions`.
-/

/-- A Python exception as it flows through `transcribe_audio`: either a
`fastapi.HTTPException` (status code plus detail) or a generic exception
carrying its message. -/
inductive PyExc where
  | http (status_code : Nat) (detail : String)
  | generic (msg : String)
deriving Repr, DecidableEq

/-- Python `str(e)` for the exceptions above.  `starlette.exceptions.HTTPException`
renders as `f"{self.status_code}: {self.detail}"`. -/
def PyExc.toMessage : PyExc → String
  | .http s d => toString s ++ ": " ++ d
  | .generic m => m

/-- Whitespace in the sense of Python `str.strip()` (ASCII portion). -/
def pyIsSpace (c : Char) : Bool :=
  c = ' ' || c = '\t' || c = '\n' || c = '\r' || c = '\x0b' || c = '\x0c'

/-- Python `s.strip()`: drop leading and trailing whitespace. -/
def pyStrip (s : String) : String :=
  String.mk ((((s.data.dropWhile pyIsSpace).reverse).dropWhile pyIsSpace).reverse)

/-- The result dictionary produced by the opaque whisper backend
(`result["text"]`, `result.get("language")`, `result.get("segments", [])`). -/
structure WhisperResult where
  text : String
  language : Option String
  segments : List String
deriving Repr, DecidableEq

/-- The options dictionary built at lines 120-124 of `whisper_api_server.py`:
`options["language"]` and `options["initial_prompt"]` are each either present
or absent. -/
structure TranscribeOptions where
  language : Option String
  initial_prompt : Option String
deriving Repr, DecidableEq

/-- The opaque transcription backend: `load` models `whisper.load_model`
(`none` = the load raised), `transcribe` models `model.transcribe` applied to
the saved audio bytes and the options dictionary (`Except.error` = it raised,
carrying `str(e)`). -/
structure Backend (H : Type) where
  load : String → Option H
  transcribe : H → String → TranscribeOptions → Except String WhisperResult

/-- The server's process-wide mutable state: globals `whisper_model` and
`current_model_name` of `whisper_api_server.py`. -/
structure ServerState (H : Type) where
  whisper_model : Option H
  current_model_name : Option String
deriving Repr, DecidableEq

/-- `load_whisper_model` (lines 34-45): on backend success both globals are
assigned and `True` is returned; if `whisper.load_model` raises, neither
global was assigned yet, the exception is logged and `False` is returned. -/
def load_whisper_model {H : Type} (b : Backend H) (st : ServerState H)
    (model_name : String) : Bool × ServerState H :=
  match b.load model_name with
  | some m => (true, { whisper_model := some m, current_model_name := some model_name })
  | none => (false, st)

/-- Content-type validation (line 93):
`not file.content_type or not file.content_type.startswith("audio/")` rejects;
a missing or empty content type is falsy. -/
def contentTypeOk : Option String → Bool
  | none => false
  | some ct => if ct = "" then false else "audio/".data.isPrefixOf ct.data

/-- The model-resolution step of `transcribe_audio` (lines 96-105): reload when
no model is loaded or the requested name differs from the current one,
otherwise use the cached model.  `loadAttempted` records whether
`load_whisper_model` (the expensive backend load) was invoked. -/
structure ResolveResult (H : Type) where
  ok : Bool
  state : ServerState H
  loadAttempted : Bool
deriving Repr, DecidableEq

/-- Lines 96-105 of `whisper_api_server.py`. -/
def resolve_model {H : Type} (b : Backend H) (st : ServerState H)
    (model : String) : ResolveResult H :=
  if st.whisper_model.isNone ∨ st.current_model_name ≠ some model then
    match load_whisper_model b st model with
    | (ok, st1) => { ok := ok, state := st1, loadAttempted := true }
  else
    { ok := true, state := st, loadAttempted := false }

/-- The options dictionary construction (lines 120-124): the language hint is
passed only when the language string is truthy and not `"auto"`; the prompt
only when truthy. -/
def build_options (language prompt : String) : TranscribeOptions :=
  { language := if language ≠ "" ∧ language ≠ "auto" then some language else none,
    initial_prompt := if prompt ≠ "" then some prompt else none }

/-- Lines 134-137: `result["text"].strip()`, then if non-empty
`transcribed_text[0].upper() + transcribed_text[1:]`. -/
def postprocess_text (raw : String) : String :=
  let transcribed_text := pyStrip raw
  if transcribed_text ≠ "" then
    String.mk [Char.toUpper (transcribed_text.data.headD ' ')] ++
      String.mk transcribed_text.data.tail
  else transcribed_text

/-- The 200-response body of `POST /transcribe` (lines 139-143). -/
structure Body where
  text : String
  language : String
  segments : List String
deriving Repr, DecidableEq

/-- The observable outcome of one `POST /transcribe` request: the HTTP
response (error = status code and `detail`), the final globals, and ghost
fields recording whether a model load was attempted, which options dictionary
(if any) was handed to the backend, and whether the request's temporary file
was created and still exists when the handler returns. -/
structure Outcome (H : Type) where
  response : Except (Nat × String) Body
  state : ServerState H
  loadAttempted : Bool
  backendOptions : Option TranscribeOptions
  tempCreated : Bool
  tempExists : Bool
deriving Repr

/-- A multipart request to `POST /transcribe`: the uploaded file's declared
content type (missing = `none`), its name and bytes, and the `model`,
`language`, `prompt` form fields (FastAPI fills in the defaults `"turbo"`,
`"en"`, `""` when absent). -/
structure UploadRequest where
  content_type : Option String
  filename : String
  content : String
  model : String
  language : String
  prompt : String
deriving Repr, DecidableEq

/-- `transcribe_audio` (lines 71-153).  Control flow of the source: the whole
body sits in a `try` whose `except Exception as e` re-raises
`HTTPException(500, f"Transcription failed: {str(e)}")` — and since
`HTTPException` subclasses `Exception`, the explicit `HTTPException(400)`
(bad content type) and `HTTPException(500)` (load failure) raised inside the
`try` are themselves caught and re-wrapped.  The temporary file is unlinked on
the success path (line 130) and in the inner `except` (lines 147-148). -/
def transcribe_audio {H : Type} (b : Backend H) (st : ServerState H)
    (req : UploadRequest) : Outcome H :=
  match contentTypeOk req.content_type with
  | false =>
    -- raise HTTPException(400, "File must be an audio file"), caught by the
    -- outer except and re-raised as HTTPException(500, "Transcription failed: " + str(e))
    { response := Except.error (500, "Transcription failed: " ++
        PyExc.toMessage (PyExc.http 400 "File must be an audio file")),
      state := st, loadAttempted := false, backendOptions := none,
      tempCreated := false, tempExists := false }
  | true =>
    match resolve_model b st req.model with
    | { ok := false, state := st1, loadAttempted := la } =>
      -- raise HTTPException(500, "Failed to load Whisper model"), same re-wrap
      { response := Except.error (500, "Transcription failed: " ++
          PyExc.toMessage (PyExc.http 500 "Failed to load Whisper model")),
        state := st1, loadAttempted := la, backendOptions := none,
        tempCreated := false, tempExists := false }
    | { ok := true, state := st1, loadAttempted := la } =>
      match st1.whisper_model with
      | none =>
        -- whisper_model is None: the call raises AttributeError, the inner
        -- except unlinks the temp file and re-raises, the outer except wraps it
        { response := Except.error (500,
            "Transcription failed: 'NoneType' object has no attribute 'transcribe'"),
          state := st1, loadAttempted := la, backendOptions := none,
          tempCreated := true, tempExists := false }
      | some m =>
        match b.transcribe m req.content (build_options req.language req.prompt) with
        | Except.ok result =>
          { response := Except.ok
              { text := postprocess_text result.text,
                language := result.language.getD req.language,
                segments := result.segments },
            state := st1, loadAttempted := la,
            backendOptions := some (build_options req.language req.prompt),
            tempCreated := true, tempExists := false }
        | Except.error msg =>
          -- inner except: unlink temp file, re-raise; outer except: wrap as 500
          { response := Except.error (500, "Transcription failed: " ++ msg),
            state := st1, loadAttempted := la,
            backendOptions := some (build_options req.language req.prompt),
            tempCreated := true, tempExists := false }

/-- Outcome of `POST /v1/audio/transcriptions`: the narrowed `{text, language}`
envelope or the propagated HTTP error. -/
structure OAIOutcome (H : Type) where
  response : Except (Nat × String) (String × String)
  state : ServerState H
deriving Repr

/-- `openai_compatible_endpoint` (lines 156-179): calls `transcribe_audio`,
returns `{"text": result["text"], "language": result["language"]}`, and
re-raises any `HTTPException` unchanged (`except HTTPException: raise`). -/
def openai_compatible_endpoint {H : Type} (b : Backend H) (st : ServerState H)
    (req : UploadRequest) : OAIOutcome H :=
  match transcribe_audio b st req with
  | { response := Except.ok body, state := st1, .. } =>
    { response := Except.ok (body.text, body.language), state := st1 }
  | { response := Except.error e, state := st1, .. } =>
    { response := Except.error e, state := st1 }

/-- `get_available_models` (lines 64-68): the static model list and the
current model name (`"none"` when no model is loaded). -/
def get_available_models {H : Type} (st : ServerState H) : List String × String :=
  (["tiny", "base", "small", "medium", "large"], st.current_model_name.getD "none")

/-!
Client side (`whisper_api_client.py`): a two-state recording controller driven
by a hotkey toggle, an audio buffer filled by the capture callback, and the
save-and-upload sequence.  The network is modelled as an oracle `NetResult`
(the HTTP response, or the exception `requests.post` raised).
-/

/-- One block of PCM samples delivered by the capture device (`indata.copy()`). -/
abbrev Frame := List Int

/-- Client globals `is_recording` and `recording_data`. -/
structure ClientState where
  is_recording : Bool
  recording_data : List Frame
deriving Repr, DecidableEq

/-- `callback` (lines 24-27): append the incoming frame only while recording. -/
def callback (st : ClientState) (indata : Frame) : ClientState :=
  if st.is_recording then
    { st with recording_data := st.recording_data ++ [indata] }
  else st

/-- What the network does to the upload: an HTTP response with a status code
and the JSON `text` field, or a raised exception (connection refused, etc.). -/
inductive NetResult where
  | response (status : Nat) (text : String)
  | failure (msg : String)
deriving Repr, DecidableEq

/-- Observable outcome of `save_and_transcribe` (lines 42-84): whether an HTTP
request was sent, the temp-file ghost fields, the text handed to the text
injector (`none` when nothing was injected), and whether the `except` branch
printed an error. -/
structure UploadOutcome where
  requestSent : Bool
  tempCreated : Bool
  tempExists : Bool
  injectedText : Option String
  errorPrinted : Bool
deriving Repr, DecidableEq

/-- `save_and_transcribe` (lines 42-84): empty buffer returns immediately;
otherwise the audio is written to a temp file, posted, `raise_for_status`
raises on 4xx/5xx, the response text is stripped and injected, and the
`finally` block unlinks the temp file on every path. -/
def save_and_transcribe (recording_data : List Frame) (net : NetResult) :
    UploadOutcome :=
  if recording_data = [] then
    { requestSent := false, tempCreated := false, tempExists := false,
      injectedText := none, errorPrinted := false }
  else
    match net with
    | NetResult.response status text =>
      if 400 ≤ status ∧ status < 600 then
        -- resp.raise_for_status() raises HTTPError; except prints; finally unlinks
        { requestSent := true, tempCreated := true, tempExists := false,
          injectedText := none, errorPrinted := true }
      else
        -- resp.json()["text"].strip() is injected; finally unlinks
        { requestSent := true, tempCreated := true, tempExists := false,
          injectedText := some (pyStrip text), errorPrinted := false }
    | NetResult.failure _ =>
      -- requests.post raised; except prints; finally unlinks
      { requestSent := true, tempCreated := true, tempExists := false,
        injectedText := none, errorPrinted := true }

/-- Result of one hotkey toggle: the new client state and, when the toggle
stopped a recording, the outcome of the triggered upload. -/
structure ToggleOutcome where
  state : ClientState
  upload : Option UploadOutcome
deriving Repr, DecidableEq

/-- `toggle_recording` (lines 30-39): Idle resets the buffer and starts
recording; Recording stops and runs `save_and_transcribe` synchronously
(the buffer itself is only cleared again at the next start). -/
def toggle_recording (st : ClientState) (net : NetResult) : ToggleOutcome :=
  if st.is_recording = false then
    { state := { is_recording := true, recording_data := [] }, upload := none }
  else
    { state := { st with is_recording := false },
      upload := some (save_and_transcribe st.recording_data net) }

/-! Concrete backends used to instantiate the universally quantified theorems
on closed inputs. -/

/-- A backend (handles = `Nat`) whose loads always succeed and whose
transcription returns a fixed raw transcript. -/
def demoBackend : Backend Nat where
  load := fun _ => some 0
  transcribe := fun _ _ _ =>
    Except.ok { text := "  hello world", language := some "en", segments := [] }

/-- A backend whose loads always fail. -/
def failingLoadBackend : Backend Nat where
  load := fun _ => none
  transcribe := fun _ _ _ =>
    Except.ok { text := "", language := none, segments := [] }

/-- A well-formed audio upload used as a concrete request. -/
def demoRequest : UploadRequest where
  content_type := some "audio/wav"
  filename := "audio.wav"
  content := "RIFFdata"
  model := "turbo"
  language := "en"
  prompt := ""

/-- Second definition for the refinement claim about post-processing, written
from the spec's words: strip surrounding whitespace; if the stripped result is
non-empty, uppercase its first character and leave all remaining characters
unchanged. -/
def stripCapitalizeSpec (s : String) : String :=
  match (pyStrip s).data with
  | [] => ""
  | c :: rest => String.mk (Char.toUpper c :: rest)

/-- Claim C2: for every backend transcript string, the service's
post-processing returns the transcript with surrounding whitespace stripped
and, if the stripped result is non-empty, its first character uppercased and
all remaining characters unchanged; in particular `"  hello world"` yields
`"Hello world"` and `""` yields `""`. -/
theorem postprocess_strips_and_capitalizes :
    (∀ s, postprocess_text s = stripCapitalizeSpec s)
    ∧ postprocess_text "  hello world" = "Hello world"
    ∧ postprocess_text "" = "" := by
  refine ⟨fun s => ?_, by decide, by decide⟩
  simp only [postprocess_text, stripCapitalizeSpec]
  generalize pyStrip s = t
  obtain ⟨l⟩ := t
  cases l with
  | nil => simp
  | cons c cs =>
    have hne : String.mk (c :: cs) ≠ "" := by
      intro h
      simpa using congrArg String.data h
    rw [if_pos hne]
    rfl

/-- Claim C10: `GET /models` always returns the fixed list
`["tiny", "base", "small", "medium", "large"]`, which never contains
`"turbo"`, even when `"turbo"` is the loaded model reported as
`current_model`. -/
theorem models_list_is_static_and_excludes_turbo {H : Type} (st : ServerState H) :
    (get_available_models st).1 = ["tiny", "base", "small", "medium", "large"]
    ∧ "turbo" ∉ (get_available_models st).1
    ∧ (st.current_model_name = some "turbo" →
        (get_available_models st).2 = "turbo") := by
  have hfixed : (get_available_models st).1 = ["tiny", "base", "small", "medium", "large"] := rfl
  refine ⟨hfixed, ?_, fun h => ?_⟩
  · rw [hfixed]; decide
  · simp [get_available_models, h]

/-- Witness for C10 at a state whose current model is `"turbo"`. -/
theorem models_list_is_static_and_excludes_turbo_witness :
    "turbo" ∉ (get_available_models (⟨some 0, some "turbo"⟩ : ServerState Nat)).1
    ∧ (get_available_models (⟨some 0, some "turbo"⟩ : ServerState Nat)).2 = "turbo" :=
  ⟨(models_list_is_static_and_excludes_turbo ⟨some 0, some "turbo"⟩).2.1,
   (models_list_is_static_and_excludes_turbo ⟨some 0, some "turbo"⟩).2.2 rfl⟩

/-- Claim C8: the capture callback appends the incoming frame iff the state is
Recording; while Idle the frame is dropped and the state is unchanged; and a
toggle from Idle resets the buffer to empty as it starts recording. -/
theorem callback_appends_iff_recording (st : ClientState) (f : Frame)
    (net : NetResult) :
    (st.is_recording = true →
      callback st f = { st with recording_data := st.recording_data ++ [f] })
    ∧ (st.is_recording = false → callback st f = st)
    ∧ (st.is_recording = false →
      (toggle_recording st net).state = { is_recording := true, recording_data := [] }) := by
  refine ⟨fun h => ?_, fun h => ?_, fun h => ?_⟩ <;>
    simp [callback, toggle_recording, h]

/-- Witness for C8 on concrete states. -/
theorem callback_appends_iff_recording_witness :
    callback ⟨true, []⟩ [1] = ⟨true, [[1]]⟩
    ∧ callback ⟨false, [[2]]⟩ [1] = ⟨false, [[2]]⟩
    ∧ (toggle_recording ⟨false, [[2]]⟩ (NetResult.failure "refused")).state = ⟨true, []⟩ :=
  ⟨(callback_appends_iff_recording ⟨true, []⟩ [1] (NetResult.failure "refused")).1 rfl,
   (callback_appends_iff_recording ⟨false, [[2]]⟩ [1] (NetResult.failure "refused")).2.1 rfl,
   (callback_appends_iff_recording ⟨false, [[2]]⟩ [1] (NetResult.failure "refused")).2.2 rfl⟩

/-- Claim C7: stopping the recording with an empty buffer sends no request and
raises no error, and the controller remains usable: the next toggle starts a
fresh recording session. -/
theorem stop_with_empty_buffer_is_noop (st : ClientState) (net net2 : NetResult)
    (hrec : st.is_recording = true) (hempty : st.recording_data = []) :
    (toggle_recording st net).state.is_recording = false
    ∧ (toggle_recording st net).upload =
        some { requestSent := false, tempCreated := false, tempExists := false,
               injectedText := none, errorPrinted := false }
    ∧ (toggle_recording (toggle_recording st net).state net2).state =
        { is_recording := true, recording_data := [] } := by
  refine ⟨?_, ?_, ?_⟩ <;> simp [toggle_recording, save_and_transcribe, hrec, hempty]

/-- Witness for C7: a recording state with an empty buffer. -/
theorem stop_with_empty_buffer_is_noop_witness :
    (toggle_recording ⟨true, []⟩ (NetResult.failure "refused")).state.is_recording = false
    ∧ (toggle_recording ⟨true, []⟩ (NetResult.failure "refused")).upload =
        some { requestSent := false, tempCreated := false, tempExists := false,
               injectedText := none, errorPrinted := false }
    ∧ (toggle_recording (toggle_recording ⟨true, []⟩ (NetResult.failure "refused")).state
        (NetResult.response 200 "ok")).state =
        { is_recording := true, recording_data := [] } :=
  stop_with_empty_buffer_is_noop ⟨true, []⟩ (NetResult.failure "refused")
    (NetResult.response 200 "ok") rfl rfl

/-- Claim C5: on the service, every `POST /transcribe` request ends with the
request's temporary file no longer existing, on every exit path; likewise the
client's upload sequence deletes its temporary WAV file on success, on HTTP
error, and on network failure. -/
theorem temp_file_deleted_on_every_path {H : Type} (b : Backend H)
    (st : ServerState H) (req : UploadRequest) (data : List Frame)
    (net : NetResult) :
    (transcribe_audio b st req).tempExists = false
    ∧ (save_and_transcribe data net).tempExists = false := by
  constructor
  · cases hct : contentTypeOk req.content_type with
    | false => simp [transcribe_audio, hct]
    | true =>
      rcases hr : resolve_model b st req.model with ⟨ok, st1, la⟩
      cases ok with
      | false => simp [transcribe_audio, hct, hr]
      | true =>
        cases hm : st1.whisper_model with
        | none => simp [transcribe_audio, hct, hr, hm]
        | some m =>
          cases ht : b.transcribe m req.content (build_options req.language req.prompt) with
          | ok r => simp [transcribe_audio, hct, hr, hm, ht]
          | error msg => simp [transcribe_audio, hct, hr, hm, ht]
  · rcases hd : data with _ | ⟨f, rest⟩
    · simp [save_and_transcribe]
    · cases net with
      | response status text =>
        by_cases hs : 400 ≤ status ∧ status < 600 <;>
          simp [save_and_transcribe, hs]
      | failure msg => simp [save_and_transcribe]

/-- Claim C3: when the requested name equals the currently loaded model name
and a model is loaded, resolution returns the cached state with no load call;
and after any successful resolution, resolving the same name again performs no
further load and leaves the state unchanged (at most one expensive load across
two sequential resolutions). -/
theorem resolve_cached_model_no_reload {H : Type} (b : Backend H)
    (st : ServerState H) (name : String) :
    (∀ m, st.whisper_model = some m → st.current_model_name = some name →
      resolve_model b st name = { ok := true, state := st, loadAttempted := false })
    ∧ ((resolve_model b st name).ok = true →
      (resolve_model b (resolve_model b st name).state name).loadAttempted = false
      ∧ (resolve_model b (resolve_model b st name).state name).state
          = (resolve_model b st name).state) := by
  constructor
  · intro m hm hc
    simp [resolve_model, hm, hc]
  · intro h
    by_cases hcond : st.whisper_model.isNone = true ∨ st.current_model_name ≠ some name
    · cases hb : b.load name with
      | none =>
        have hre : resolve_model b st name
            = { ok := false, state := st, loadAttempted := true } := by
          rw [resolve_model, if_pos hcond, load_whisper_model, hb]
        rw [hre] at h
        simp at h
      | some m =>
        have hre : resolve_model b st name
            = { ok := true, state := ⟨some m, some name⟩, loadAttempted := true } := by
          rw [resolve_model, if_pos hcond, load_whisper_model, hb]
        rw [hre]
        show (resolve_model b ⟨some m, some name⟩ name).loadAttempted = false
          ∧ (resolve_model b ⟨some m, some name⟩ name).state = ⟨some m, some name⟩
        simp [resolve_model]
    · have hre : resolve_model b st name
          = { ok := true, state := st, loadAttempted := false } := by
        rw [resolve_model, if_neg hcond]
      rw [hre]
      show (resolve_model b st name).loadAttempted = false
        ∧ (resolve_model b st name).state = st
      rw [hre]
      exact ⟨rfl, rfl⟩

/-- Witness for C3: a cache already holding `"turbo"` resolves `"turbo"` with
no load call, and a cold cache that loaded once does not load again. -/
theorem resolve_cached_model_no_reload_witness :
    resolve_model demoBackend (⟨some 0, some "turbo"⟩ : ServerState Nat) "turbo"
      = { ok := true, state := ⟨some 0, some "turbo"⟩, loadAttempted := false }
    ∧ (resolve_model demoBackend
        (resolve_model demoBackend (⟨none, none⟩ : ServerState Nat) "turbo").state
        "turbo").loadAttempted = false :=
  ⟨(resolve_cached_model_no_reload demoBackend ⟨some 0, some "turbo"⟩ "turbo").1 0 rfl rfl,
   ((resolve_cached_model_no_reload demoBackend ⟨none, none⟩ "turbo").2 rfl).1⟩

/-- Claim C4: when the backend fails to load the requested model, the request
is answered with HTTP 500 and a descriptive message, a load was attempted, and
the cache globals are exactly as before the failed load. -/
theorem load_failure_gives_500_and_cache_unchanged {H : Type} (b : Backend H)
    (st : ServerState H) (req : UploadRequest)
    (hct : contentTypeOk req.content_type = true)
    (hneed : st.whisper_model.isNone = true ∨ st.current_model_name ≠ some req.model)
    (hfail : b.load req.model = none) :
    (transcribe_audio b st req).response
      = Except.error (500, "Transcription failed: 500: Failed to load Whisper model")
    ∧ (transcribe_audio b st req).state = st
    ∧ (transcribe_audio b st req).loadAttempted = true := by
  have hr : resolve_model b st req.model
      = { ok := false, state := st, loadAttempted := true } := by
    rw [resolve_model, if_pos hneed, load_whisper_model, hfail]
  refine ⟨?_, ?_, ?_⟩ <;> (simp [transcribe_audio, hct, hr]; try rfl)

/-- Witness for C4: an always-failing backend against an empty cache. -/
theorem load_failure_gives_500_and_cache_unchanged_witness :
    (transcribe_audio failingLoadBackend (⟨none, none⟩ : ServerState Nat) demoRequest).response
      = Except.error (500, "Transcription failed: 500: Failed to load Whisper model")
    ∧ (transcribe_audio failingLoadBackend (⟨none, none⟩ : ServerState Nat) demoRequest).state
      = ⟨none, none⟩ :=
  ⟨(load_failure_gives_500_and_cache_unchanged failingLoadBackend ⟨none, none⟩ demoRequest
      rfl (Or.inl rfl) rfl).1,
   (load_failure_gives_500_and_cache_unchanged failingLoadBackend ⟨none, none⟩ demoRequest
      rfl (Or.inl rfl) rfl).2.1⟩

/-- Claim C6: whenever the service invokes the transcription backend, the
options dictionary contains the language hint iff the language parameter is
non-empty and not `"auto"` (and then it is exactly that parameter), contains
the prompt iff the prompt parameter is non-empty (and then exactly that
parameter); in particular language `"auto"` omits the hint entirely. -/
theorem backend_options_gate_language_and_prompt {H : Type} (b : Backend H)
    (st : ServerState H) (req : UploadRequest) (o : TranscribeOptions)
    (h : (transcribe_audio b st req).backendOptions = some o) :
    (o.language = none ↔ (req.language = "" ∨ req.language = "auto"))
    ∧ (∀ l, o.language = some l → l = req.language ∧ req.language ≠ "auto")
    ∧ (o.initial_prompt = none ↔ req.prompt = "")
    ∧ (∀ p, o.initial_prompt = some p → p = req.prompt)
    ∧ (req.language = "auto" → o.language = none) := by
  have ho : o = build_options req.language req.prompt := by
    cases hct : contentTypeOk req.content_type with
    | false => simp [transcribe_audio, hct] at h
    | true =>
      rcases hr : resolve_model b st req.model with ⟨ok, st1, la⟩
      cases ok with
      | false => simp [transcribe_audio, hct, hr] at h
      | true =>
        cases hm : st1.whisper_model with
        | none => simp [transcribe_audio, hct, hr, hm] at h
        | some m =>
          cases ht : b.transcribe m req.content (build_options req.language req.prompt) with
          | ok r =>
            simp only [transcribe_audio, hct, hr, hm, ht, Option.some.injEq] at h
            exact h.symm
          | error msg =>
            simp only [transcribe_audio, hct, hr, hm, ht, Option.some.injEq] at h
            exact h.symm
  subst ho
  by_cases h1 : req.language = "" <;> by_cases h2 : req.language = "auto" <;>
    by_cases h3 : req.prompt = "" <;>
      simp [build_options, h1, h2, h3]

/-- Witness for C6: language `"auto"` and a non-empty prompt reach the backend
as an absent language hint plus the prompt verbatim. -/
theorem backend_options_gate_language_and_prompt_witness :
    (transcribe_audio demoBackend (⟨some 0, some "turbo"⟩ : ServerState Nat)
        { demoRequest with language := "auto", prompt := "notes" }).backendOptions
      = some { language := none, initial_prompt := some "notes" }
    ∧ ({ language := none, initial_prompt := some "notes" } : TranscribeOptions).language
      = none :=
  ⟨rfl,
   (backend_options_gate_language_and_prompt demoBackend ⟨some 0, some "turbo"⟩
      { demoRequest with language := "auto", prompt := "notes" }
      { language := none, initial_prompt := some "notes" } rfl).2.2.2.2 rfl⟩

/-- Claim C9: `POST /v1/audio/transcriptions` is a pure response-shape adapter
over `POST /transcribe`: it leaves the cache state identical, on success
returns exactly the `text` and `language` fields of the `/transcribe` body,
and on failure propagates the same HTTP status and detail. -/
theorem openai_endpoint_is_projection_of_transcribe {H : Type} (b : Backend H)
    (st : ServerState H) (req : UploadRequest) :
    (openai_compatible_endpoint b st req).state = (transcribe_audio b st req).state
    ∧ (∀ body, (transcribe_audio b st req).response = Except.ok body →
        (openai_compatible_endpoint b st req).response
          = Except.ok (body.text, body.language))
    ∧ (∀ e, (transcribe_audio b st req).response = Except.error e →
        (openai_compatible_endpoint b st req).response = Except.error e) := by
  rcases h : transcribe_audio b st req with ⟨resp, st1, la, bo, tc, te⟩
  cases resp with
  | ok body => simp [openai_compatible_endpoint, h]
  | error e => simp [openai_compatible_endpoint, h]

/-- Witness for C9: the adapter on a concrete successful request. -/
theorem openai_endpoint_is_projection_of_transcribe_witness :
    (openai_compatible_endpoint demoBackend (⟨none, none⟩ : ServerState Nat)
        demoRequest).response = Except.ok ("Hello world", "en") :=
  (openai_endpoint_is_projection_of_transcribe demoBackend ⟨none, none⟩ demoRequest).2.1
    { text := "Hello world", language := "en", segments := [] } rfl

/-- Claim C1 (code bug): a `POST /transcribe` upload with a non-audio content
type is rejected before any model load is attempted, but the response status
is 500, not 400: the `HTTPException(400)` raised at line 94 is caught by the
endpoint's own blanket `except Exception` (line 151) — `HTTPException`
subclasses `Exception` — and re-raised as
`HTTPException(500, "Transcription failed: 400: File must be an audio file")`.
The same happens for a missing content type. -/
theorem nonaudio_content_type_yields_500_before_any_load :
    (transcribe_audio demoBackend (⟨none, none⟩ : ServerState Nat)
        { demoRequest with content_type := some "text/plain" }).response
      = Except.error (500, "Transcription failed: 400: File must be an audio file")
    ∧ (transcribe_audio demoBackend (⟨none, none⟩ : ServerState Nat)
        { demoRequest with content_type := some "text/plain" }).loadAttempted = false
    ∧ (transcribe_audio demoBackend (⟨none, none⟩ : ServerState Nat)
        { demoRequest with content_type := none }).response
      = Except.error (500, "Transcription failed: 400: File must be an audio file")
    ∧ (transcribe_audio demoBackend (⟨none, none⟩ : ServerState Nat)
        { demoRequest with content_type := none }).loadAttempted = false :=
  ⟨rfl, rfl, rfl, rfl⟩
